import Mathlib

/-!
Shallow embedding of the clinic management core
(clinic_management/apps/patients: models.py, views.py, serializers.py).

The ambient clock and the Django settings value PATIENT_ID_START are made
explicit parameters; database rows become lists of records; fallible
endpoints return Except or Option.
-/

namespace Clinic

/-- Row of the Patient table; only the fields the verified operations touch
are carried (surrogate key id, the generated patient_id string, and
last_visit_date modelled as an abstract timestamp). -/
structure Patient where
  id : Nat
  patient_id : String
  last_visit_date : Option Nat
  deriving DecidableEq

/-- Zero-padding of models.py formatting spec 03d: at least three digits. -/
def pad3 (n : Nat) : String :=
  let s := toString n
  String.mk (List.replicate (3 - s.length) '0' ++ s.toList)

/-- Pieces of a character list split at every dash, as Python split on a
dash: always at least one piece, empty pieces kept. -/
def splitOnDash : List Char → List (List Char)
  | [] => [[]]
  | c :: rest =>
    match splitOnDash rest with
    | [] => if c = '-' then [[], []] else [[c]]
    | h :: t => if c = '-' then [] :: h :: t else (c :: h) :: t

/-- Digit string folded to its numeric value. -/
def digitsToNat (cs : List Char) : Nat :=
  cs.foldl (fun a c => a * 10 + (c.toNat - 48)) 0

/-- Parse of a nonempty all-digit string; none elsewhere, where the Python
int conversion raises. -/
def parseNat? (cs : List Char) : Option Nat :=
  if cs ≠ [] ∧ cs.all Char.isDigit then some (digitsToNat cs) else none

/-- Numeric suffix of a patient identifier, as in models.py
int conversion of the last dash-separated piece of last_patient.patient_id. -/
def parseSuffix (pid : String) : Option Nat :=
  parseNat? ((splitOnDash pid.toList).getLastD [])

/-- Record returned by Patient.objects.all().order_by('id').last(): the row
with the largest surrogate key, none on an empty table. -/
def lastPatient : List Patient → Option Patient
  | [] => none
  | p :: ps =>
    match lastPatient ps with
    | none => some p
    | some q => some (if p.id ≤ q.id then q else p)

/-- Identifier generation of Patient.save in models.py: read the last row by
surrogate key, parse its numeric suffix and add one, falling back to the
configured PATIENT_ID_START; format as P-year-paddedNumber. -/
def generatePatientId (ps : List Patient) (patientIdStart : Nat) (year : Nat) :
    Except String String :=
  match lastPatient ps with
  | some lp =>
    if lp.patient_id ≠ "" then
      match parseSuffix lp.patient_id with
      | some n => .ok ("P-" ++ toString year ++ "-" ++ pad3 (n + 1))
      | none => .error "IdentifierGenerationError"
    else
      .ok ("P-" ++ toString year ++ "-" ++ pad3 patientIdStart)
  | none => .ok ("P-" ++ toString year ++ "-" ++ pad3 patientIdStart)

/-- Commit of a freshly created patient row to the table. -/
def insertPatient (ps : List Patient) (newId : Nat) (pid : String) : List Patient :=
  ps ++ [⟨newId, pid, none⟩]

/-- Interleaving in which two Patient.save calls both read the store before
either insert commits: exactly the race the unguarded
read-last-then-insert sequence of models.py permits. -/
def raceSchedule (s0 : List Patient) (patientIdStart year id1 id2 : Nat) :
    List Patient :=
  let pid1 := ((generatePatientId s0 patientIdStart year).toOption).getD ""
  let s1 := insertPatient s0 id1 pid1
  let pid2 := ((generatePatientId s0 patientIdStart year).toOption).getD ""
  insertPatient s1 id2 pid2

/-- Row of the Visit table: owning patient surrogate key, creation fields and
the seven workflow flags of models.py. -/
structure Visit where
  patient : Nat
  visit_type : String
  reason_for_visit : String
  checked_in : Bool
  triage_completed : Bool
  consultation_completed : Bool
  lab_completed : Bool
  pharmacy_completed : Bool
  billing_completed : Bool
  visit_completed : Bool
  deriving DecidableEq

/-- The six stage names update_status in views.py recognizes. -/
def statusFields : List String :=
  ["checked_in", "triage_completed", "consultation_completed",
   "lab_completed", "pharmacy_completed", "billing_completed"]

/-- Dynamic setattr(visit, status_field, status_value) of views.py over the
six recognized stage names; any other name leaves the record as is. -/
def setStatusField (v : Visit) (f : String) (b : Bool) : Visit :=
  if f = "checked_in" then { v with checked_in := b }
  else if f = "triage_completed" then { v with triage_completed := b }
  else if f = "consultation_completed" then { v with consultation_completed := b }
  else if f = "lab_completed" then { v with lab_completed := b }
  else if f = "pharmacy_completed" then { v with pharmacy_completed := b }
  else if f = "billing_completed" then { v with billing_completed := b }
  else v

/-- Auto-completion test of update_status: all([checked_in, triage_completed,
consultation_completed, billing_completed]). -/
def autoCompleteCheck (v : Visit) : Bool :=
  v.checked_in && v.triage_completed && v.consultation_completed && v.billing_completed

/-- VisitViewSet.update_status of views.py: on a recognized stage name, set
the flag, run the auto-completion rule and save; otherwise answer the
Invalid status field error without saving. -/
def update_status (v : Visit) (status_field : String) (status_value : Bool) :
    Except String Visit :=
  if status_field ∈ statusFields then
    let v1 := setStatusField v status_field status_value
    let v2 := if autoCompleteCheck v1 then { v1 with visit_completed := true } else v1
    .ok v2
  else
    .error "Invalid status field"

/-- Stored row after an update_status call: the saved visit on success, the
untouched original when the endpoint answered the error. -/
def update_status_store (v : Visit) (status_field : String) (status_value : Bool) :
    Visit :=
  match update_status v status_field status_value with
  | .ok v2 => v2
  | .error _ => v

/-- Visit type choices of models.py. -/
def VISIT_TYPE_CHOICES : List String :=
  ["WALKIN", "APPOINTMENT", "EMERGENCY", "FOLLOWUP"]

/-- PatientViewSet.check_in of views.py: build visit data with defaults
WALKIN and General consultation, checked_in true; when the visit serializer
accepts (known visit type, nonempty reason) save the visit and stamp the
owning patient last_visit_date with the current time, else answer 400. -/
def check_in (p : Patient) (visitType? : Option String) (reason? : Option String)
    (now : Nat) : Except String (Visit × Patient) :=
  let vt := visitType?.getD "WALKIN"
  let reason := reason?.getD "General consultation"
  if vt ∈ VISIT_TYPE_CHOICES ∧ reason ≠ "" then
    .ok (⟨p.id, vt, reason, true, false, false, false, false, false, false⟩,
         { p with last_visit_date := some now })
  else
    .error "invalid visit data"

/-- Calendar date as plain numbers. -/
structure SimpleDate where
  year : Nat
  month : Nat
  day : Nat
  deriving DecidableEq

/-- Python tuple comparison (m1, d1) < (m2, d2): lexicographic. -/
def monthDayLess (m1 d1 m2 d2 : Nat) : Bool :=
  decide (m1 < m2) || (decide (m1 = m2) && decide (d1 < d2))

/-- Patient.get_age of models.py, with the ambient date made a parameter:
year difference minus one when the month-day pair of the evaluation date
precedes that of the birth date. -/
def get_age (today dob : SimpleDate) : Int :=
  (today.year : Int) - (dob.year : Int) -
    (if monthDayLess today.month today.day dob.month dob.day then 1 else 0)

/-- Age formula in the words of the specification: asOf.year - dob.year,
minus one if (asOf.month, asOf.day) < (dob.month, dob.day). -/
def computeAgeSpec (asOf dob : SimpleDate) : Int :=
  (asOf.year : Int) - (dob.year : Int) -
    (if asOf.month < dob.month ∨ (asOf.month = dob.month ∧ asOf.day < dob.day)
     then 1 else 0)

/-- Row of the Visit table with its surrogate key, as the medical history
serializer resolves visit primary keys against it. -/
structure VisitRow where
  id : Nat
  visit : Visit
  deriving DecidableEq

/-- Row of the MedicalHistory table: owning patient key, optional visit key
and the two required text fields. -/
structure MedicalHistoryRow where
  patient : Nat
  visit : Option Nat
  diagnosis : String
  treatment : String
  deriving DecidableEq

/-- MedicalHistorySerializer of serializers.py driving the stock create of
MedicalHistoryViewSet: the patient key must resolve, the visit key (when
given) must resolve, diagnosis and treatment must be nonempty; the
serializer performs no comparison between the visit owner and the given
patient, so the record is stored as submitted. -/
def medical_history_create (patients : List Patient) (visits : List VisitRow)
    (patientId : Nat) (visitId : Option Nat) (diagnosis treatment : String) :
    Option MedicalHistoryRow :=
  if patients.any (fun p => p.id == patientId) then
    match visitId with
    | none =>
      if diagnosis = "" ∨ treatment = "" then none
      else some ⟨patientId, none, diagnosis, treatment⟩
    | some vid =>
      if visits.any (fun r => r.id == vid) then
        if diagnosis = "" ∨ treatment = "" then none
        else some ⟨patientId, some vid, diagnosis, treatment⟩
      else none
  else none

/-- All characters are decimal digits and the count lies in the closed
interval, as one alternative of a bounded d quantifier. -/
def digitsBetween (cs : List Char) (lo hi : Nat) : Bool :=
  cs.all Char.isDigit && decide (lo ≤ cs.length) && decide (cs.length ≤ hi)

/-- Optional leading plus sign of the models.py phone pattern. -/
def stripPlus (cs : List Char) : List Char :=
  match cs with
  | c :: rest => if c = '+' then rest else c :: rest
  | [] => []

/-- Remainder of the models.py phone pattern after the optional plus: an
optional literal one followed by nine to fifteen digits, with the
backtracking of the optional one made an explicit alternation. -/
def matchAfterPlus (cs : List Char) : Bool :=
  digitsBetween cs 9 15 ||
    (match cs with
     | c :: rest => (c == '1') && digitsBetween rest 9 15
     | [] => false)

/-- The models.py validator regex on phone_number, anchored at both ends. -/
def phone_regex_match (cs : List Char) : Bool :=
  matchAfterPlus (stripPlus cs)

/-- PatientSerializer.validate_phone_number of serializers.py: the value must
start with a plus sign. -/
def validate_phone_number (cs : List Char) : Bool :=
  match cs with
  | c :: _ => c == '+'
  | [] => false

/-- A phone number the patient create and update path persists: it passes the
serializer check, the model validator regex and the column width of
seventeen characters. -/
def acceptPhone (cs : List Char) : Bool :=
  validate_phone_number cs && phone_regex_match cs && decide (cs.length ≤ 17)

/-- Visit states reachable through the in-scope operations: a fresh check_in
visit, then any chain of update_status calls with any stage value, as the
endpoint accepts status_value false as well as true. -/
inductive Reachable : Visit → Prop
  | checkin (p : Patient) (vt? reason? : Option String) (now : Nat) (v : Visit)
      (p2 : Patient) (h : check_in p vt? reason? now = .ok (v, p2)) : Reachable v
  | step (v : Visit) (f : String) (b : Bool) (v2 : Visit) (hr : Reachable v)
      (h : update_status v f b = .ok v2) : Reachable v2

/-- Visit states reachable through check_in and update_status calls whose
stage value is true, the forward-only discipline of the specification. -/
inductive ReachableFwd : Visit → Prop
  | checkin (p : Patient) (vt? reason? : Option String) (now : Nat) (v : Visit)
      (p2 : Patient) (h : check_in p vt? reason? now = .ok (v, p2)) : ReachableFwd v
  | step (v : Visit) (f : String) (v2 : Visit) (hr : ReachableFwd v)
      (h : update_status v f true = .ok v2) : ReachableFwd v2

example : generatePatientId [] 1 2024 = .ok "P-2024-001" := rfl

example : generatePatientId [⟨5, "P-2023-041", none⟩] 1 2025 = .ok "P-2025-042" := rfl

example :
    List.map Patient.patient_id (raceSchedule [] 1 2024 1 2) =
      ["P-2024-001", "P-2024-001"] := by decide

example : acceptPhone ("+1123456789012345".toList) = true := by decide

example : acceptPhone ("+254700000000".toList) = true := by decide

example : acceptPhone ("254700000000".toList) = false := by decide

example : get_age ⟨2024, 2, 29⟩ ⟨2000, 3, 1⟩ = 23 := by decide

example : get_age ⟨2024, 3, 1⟩ ⟨2000, 3, 1⟩ = 24 := by decide

/-! Helper lemmas shared between the claim theorems. -/

lemma setStatusField_visit_completed (v : Visit) (f : String) (b : Bool) :
    (setStatusField v f b).visit_completed = v.visit_completed := by
  unfold setStatusField
  repeat' split
  all_goals rfl

/-! Concrete records used by witnesses and counterexamples. -/

/-- Fresh visit as check_in builds it for patient 1. -/
def vFresh : Visit :=
  ⟨1, "WALKIN", "General consultation", true, false, false, false, false, false, false⟩

/-- Patient store with one existing row whose identifier embeds year 2023. -/
def psW : List Patient := [⟨5, "P-2023-041", none⟩]

/-- The single existing patient row of psW. -/
def pW : Patient := ⟨5, "P-2023-041", none⟩

/-- Claim C1: patient identifier allocation takes the numeric suffix of the
highest surrogate-key-ordered prior record, whichever year that identifier
embeds, and adds one; on an empty store it starts from the configured base;
the result is formatted P-currentYear-paddedSequence. -/
theorem patientId_allocation (ps : List Patient) (base year : Nat)
    (p : Patient) (n : Nat) :
    (lastPatient ps = some p → p.patient_id ≠ "" → parseSuffix p.patient_id = some n →
      generatePatientId ps base year =
        .ok ("P-" ++ toString year ++ "-" ++ pad3 (n + 1))) ∧
    (lastPatient ps = none →
      generatePatientId ps base year =
        .ok ("P-" ++ toString year ++ "-" ++ pad3 base)) := by
  constructor
  · intro hlast hne hparse
    unfold generatePatientId
    rw [hlast]
    simp only [hne, hparse]
    rw [if_pos hne]
  · intro hlast
    unfold generatePatientId
    rw [hlast]

/-- Claim C1 witness: on a store whose last record is P-2023-041, allocation
in year 2025 with base 1 yields P-2025-042, the 2023 suffix plus one under
the current year. -/
theorem patientId_allocation_witness :
    lastPatient psW = some pW ∧ pW.patient_id ≠ "" ∧
      parseSuffix pW.patient_id = some 41 ∧
      generatePatientId psW 1 2025 = .ok "P-2025-042" :=
  ⟨rfl, by decide, by decide,
   (patientId_allocation psW 1 2025 pW 41).1 rfl (by decide) (by decide)⟩

/-- Claim C2: two Patient.save calls interleaved so that both read the store
before either insert commits issue the same identifier; the empty store
with base 1 in year 2024 yields P-2024-001 twice, so the issued list is
not duplicate-free and the no-collision property fails on this code. -/
theorem concurrent_creation_duplicates :
    List.map Patient.patient_id (raceSchedule [] 1 2024 1 2) =
      ["P-2024-001", "P-2024-001"] ∧
    ¬ (List.map Patient.patient_id (raceSchedule [] 1 2024 1 2)).Nodup := by
  exact ⟨by decide, by decide⟩

/-- Claim C6: update_status on a stage name outside the six recognized ones
answers the Invalid status field error and the stored visit is unchanged. -/
theorem invalid_stage_rejected (v : Visit) (f : String) (b : Bool)
    (hf : f ∉ statusFields) :
    update_status v f b = .error "Invalid status field" ∧
      update_status_store v f b = v := by
  have h1 : update_status v f b = .error "Invalid status field" := by
    unfold update_status
    rw [if_neg hf]
  refine ⟨h1, ?_⟩
  unfold update_status_store
  rw [h1]

/-- Claim C6 witness: visit_completed is not a recognized stage name, the
call on a fresh visit errors and the store keeps the visit as it was. -/
theorem invalid_stage_rejected_witness :
    "visit_completed" ∉ statusFields ∧
      update_status vFresh "visit_completed" true = .error "Invalid status field" ∧
      update_status_store vFresh "visit_completed" true = vFresh :=
  ⟨by decide,
   (invalid_stage_rejected vFresh "visit_completed" true (by decide)).1,
   (invalid_stage_rejected vFresh "visit_completed" true (by decide)).2⟩

/-- Claim C7: get_age computes the year difference minus one exactly when the
month-day pair of the evaluation date precedes that of the birth date,
agreeing with the specification formula everywhere, and meets both birthday
boundary cases for a patient born on the first of March 2000. -/
theorem age_formula :
    (∀ asOf dob : SimpleDate, get_age asOf dob = computeAgeSpec asOf dob) ∧
    get_age ⟨2024, 2, 29⟩ ⟨2000, 3, 1⟩ = 23 ∧
    get_age ⟨2024, 3, 1⟩ ⟨2000, 3, 1⟩ = 24 := by
  refine ⟨?_, by decide, by decide⟩
  intro a d
  unfold get_age computeAgeSpec
  have h : monthDayLess a.month a.day d.month d.day = true ↔
      (a.month < d.month ∨ (a.month = d.month ∧ a.day < d.day)) := by
    simp [monthDayLess]
  by_cases hc : a.month < d.month ∨ (a.month = d.month ∧ a.day < d.day)
  · rw [if_pos (h.mpr hc), if_pos hc]
  · rw [if_neg (fun hb => hc (h.mp hb)), if_neg hc]

/-- Claim C10: check_in with both fields omitted succeeds, creating the visit
with visit type WALKIN, reason General consultation and checked_in true,
and stamps the owning patient last_visit_date with the current time; the
same holds when only one of the two fields is omitted. -/
theorem check_in_defaults (p : Patient) (now : Nat) (vt reason : String) :
    (check_in p none none now =
      .ok (⟨p.id, "WALKIN", "General consultation",
            true, false, false, false, false, false, false⟩,
           { p with last_visit_date := some now })) ∧
    (vt ∈ VISIT_TYPE_CHOICES →
      check_in p (some vt) none now =
        .ok (⟨p.id, vt, "General consultation",
              true, false, false, false, false, false, false⟩,
             { p with last_visit_date := some now })) ∧
    (reason ≠ "" →
      check_in p none (some reason) now =
        .ok (⟨p.id, "WALKIN", reason,
              true, false, false, false, false, false, false⟩,
             { p with last_visit_date := some now })) := by
  refine ⟨rfl, ?_, ?_⟩
  · intro hvt
    simp only [check_in, Option.getD]
    rw [if_pos ⟨hvt, by decide⟩]
  · intro hr
    simp only [check_in, Option.getD]
    rw [if_pos ⟨by decide, hr⟩]

/-- Claim C10 witness: concrete check-in calls for patient pW at time 7, with
both fields omitted, with only the visit type EMERGENCY given, and with
only the reason Checkup given. -/
theorem check_in_defaults_witness :
    (check_in pW none none 7 =
      .ok (⟨5, "WALKIN", "General consultation",
            true, false, false, false, false, false, false⟩,
           ⟨5, "P-2023-041", some 7⟩)) ∧
    ("EMERGENCY" ∈ VISIT_TYPE_CHOICES) ∧
    (check_in pW (some "EMERGENCY") none 7 =
      .ok (⟨5, "EMERGENCY", "General consultation",
            true, false, false, false, false, false, false⟩,
           ⟨5, "P-2023-041", some 7⟩)) ∧
    ("Checkup" ≠ "") ∧
    (check_in pW none (some "Checkup") 7 =
      .ok (⟨5, "WALKIN", "Checkup",
            true, false, false, false, false, false, false⟩,
           ⟨5, "P-2023-041", some 7⟩)) :=
  ⟨(check_in_defaults pW 7 "EMERGENCY" "Checkup").1, by decide,
   (check_in_defaults pW 7 "EMERGENCY" "Checkup").2.1 (by decide), by decide,
   (check_in_defaults pW 7 "EMERGENCY" "Checkup").2.2 (by decide)⟩

lemma setStatusField_true_mono (v : Visit) (f : String) :
    (v.checked_in = true → (setStatusField v f true).checked_in = true) ∧
    (v.triage_completed = true → (setStatusField v f true).triage_completed = true) ∧
    (v.consultation_completed = true →
      (setStatusField v f true).consultation_completed = true) ∧
    (v.lab_completed = true → (setStatusField v f true).lab_completed = true) ∧
    (v.pharmacy_completed = true → (setStatusField v f true).pharmacy_completed = true) ∧
    (v.billing_completed = true → (setStatusField v f true).billing_completed = true) := by
  unfold setStatusField
  repeat' split
  all_goals
    refine ⟨fun h => ?_, fun h => ?_, fun h => ?_, fun h => ?_, fun h => ?_, fun h => ?_⟩ <;>
      first | rfl | exact h

/-- Claim C3: update_status on a recognized stage, starting from a visit not
yet auto-completed, succeeds and leaves visit_completed true exactly when
the four gating flags of the saved record are all true; the lab and
pharmacy values, quantified inside the visit, never matter. -/
theorem setStage_autocompletion (v : Visit) (f : String) (b : Bool)
    (hf : f ∈ statusFields) (hv : v.visit_completed = false) :
    ∃ v2, update_status v f b = .ok v2 ∧
      (v2.visit_completed = true ↔
        (v2.checked_in = true ∧ v2.triage_completed = true ∧
         v2.consultation_completed = true ∧ v2.billing_completed = true)) := by
  simp only [update_status]
  rw [if_pos hf]
  by_cases hac : autoCompleteCheck (setStatusField v f b) = true
  · rw [if_pos hac]
    refine ⟨_, rfl, ?_⟩
    have h4 := hac
    unfold autoCompleteCheck at h4
    simp only [Bool.and_eq_true] at h4
    exact ⟨fun _ => ⟨h4.1.1.1, h4.1.1.2, h4.1.2, h4.2⟩, fun _ => rfl⟩
  · rw [if_neg hac]
    refine ⟨_, rfl, ?_⟩
    have hvc : (setStatusField v f b).visit_completed = false := by
      rw [setStatusField_visit_completed]
      exact hv
    constructor
    · intro h
      rw [hvc] at h
      exact Bool.noConfusion h
    · intro hg
      exfalso
      apply hac
      unfold autoCompleteCheck
      rw [hg.1, hg.2.1, hg.2.2.1, hg.2.2.2]
      rfl


/-- Claim C3 witness: a fresh checked-in visit with the billing stage set
true stays incomplete, with the biconditional settled at a concrete call. -/
theorem setStage_autocompletion_witness :
    "billing_completed" ∈ statusFields ∧ vFresh.visit_completed = false ∧
      ∃ v2, update_status vFresh "billing_completed" true = .ok v2 ∧
        (v2.visit_completed = true ↔
          (v2.checked_in = true ∧ v2.triage_completed = true ∧
           v2.consultation_completed = true ∧ v2.billing_completed = true)) :=
  ⟨by decide, rfl,
   setStage_autocompletion vFresh "billing_completed" true (by decide) rfl⟩

/-- Visit with every workflow flag already true. -/
def vAll : Visit :=
  ⟨1, "WALKIN", "General consultation", true, true, true, true, true, true, true⟩

/-- The vAll record after its checked_in flag is reset. -/
def vReset : Visit :=
  ⟨1, "WALKIN", "General consultation", false, true, true, true, true, true, true⟩

/-- Claim C5 counterexample: update_status accepts status_value false and
resets the true checked_in flag of a fully completed visit, so an in-scope
operation does reset a true flag. -/
theorem stage_reset_counterexample :
    vAll.checked_in = true ∧
      update_status vAll "checked_in" false = .ok vReset ∧
      vReset.checked_in = false :=
  ⟨rfl, rfl, rfl⟩

/-- Claim C5 amended: update_status called with stage value true never resets
any of the seven flags; the reset in the source needs an explicit
status_value false. -/
theorem setStage_true_monotone (v : Visit) (f : String) (v2 : Visit)
    (h : update_status v f true = .ok v2) :
    (v.checked_in = true → v2.checked_in = true) ∧
    (v.triage_completed = true → v2.triage_completed = true) ∧
    (v.consultation_completed = true → v2.consultation_completed = true) ∧
    (v.lab_completed = true → v2.lab_completed = true) ∧
    (v.pharmacy_completed = true → v2.pharmacy_completed = true) ∧
    (v.billing_completed = true → v2.billing_completed = true) ∧
    (v.visit_completed = true → v2.visit_completed = true) := by
  simp only [update_status] at h
  by_cases hf : f ∈ statusFields
  · rw [if_pos hf] at h
    injection h with h2
    subst h2
    have m := setStatusField_true_mono v f
    by_cases hac : autoCompleteCheck (setStatusField v f true) = true
    · rw [if_pos hac]
      exact ⟨m.1, m.2.1, m.2.2.1, m.2.2.2.1, m.2.2.2.2.1, m.2.2.2.2.2,
        fun _ => rfl⟩
    · rw [if_neg hac]
      refine ⟨m.1, m.2.1, m.2.2.1, m.2.2.2.1, m.2.2.2.2.1, m.2.2.2.2.2, fun h => ?_⟩
      rw [setStatusField_visit_completed]
      exact h
  · rw [if_neg hf] at h
    exact Except.noConfusion h

/-- The vFresh record after its triage stage is set true. -/
def vTriage : Visit :=
  ⟨1, "WALKIN", "General consultation", true, true, false, false, false, false, false⟩

/-- Claim C5 witness: setting the triage stage of a fresh checked-in visit
keeps every flag that was already true. -/
theorem setStage_true_monotone_witness :
    update_status vFresh "triage_completed" true = .ok vTriage ∧
      ((vFresh.checked_in = true → vTriage.checked_in = true) ∧
       (vFresh.triage_completed = true → vTriage.triage_completed = true) ∧
       (vFresh.consultation_completed = true → vTriage.consultation_completed = true) ∧
       (vFresh.lab_completed = true → vTriage.lab_completed = true) ∧
       (vFresh.pharmacy_completed = true → vTriage.pharmacy_completed = true) ∧
       (vFresh.billing_completed = true → vTriage.billing_completed = true) ∧
       (vFresh.visit_completed = true → vTriage.visit_completed = true)) :=
  ⟨rfl, setStage_true_monotone vFresh "triage_completed" vTriage rfl⟩

/-- Patient owning the counterexample visit trace. -/
def p1 : Patient := ⟨1, "P-2024-001", none⟩

/-- The fresh visit after its triage stage is set. -/
def vStep1 : Visit :=
  ⟨1, "WALKIN", "General consultation", true, true, false, false, false, false, false⟩

/-- The previous visit after its consultation stage is set. -/
def vStep2 : Visit :=
  ⟨1, "WALKIN", "General consultation", true, true, true, false, false, false, false⟩

/-- The previous visit after its billing stage is set, which auto-completes
the visit. -/
def vStep3 : Visit :=
  ⟨1, "WALKIN", "General consultation", true, true, true, false, false, true, true⟩

/-- The auto-completed visit after its checked_in flag is reset through a
status_value false call: still marked completed. -/
def vBad : Visit :=
  ⟨1, "WALKIN", "General consultation", false, true, true, false, false, true, true⟩

/-- Claim C4 counterexample: through check_in and update_status alone the
store reaches a visit that is marked completed while its checked_in gate
is false, because update_status accepts status_value false after the
auto-completion already fired. -/
theorem completed_without_gates_reachable :
    Reachable vBad ∧ vBad.visit_completed = true ∧ vBad.checked_in = false :=
  ⟨Reachable.step vStep3 "checked_in" false vBad
    (Reachable.step vStep2 "billing_completed" true vStep3
      (Reachable.step vStep1 "consultation_completed" true vStep2
        (Reachable.step vFresh "triage_completed" true vStep1
          (Reachable.checkin p1 none none 0 vFresh ⟨1, "P-2024-001", some 0⟩ rfl)
          rfl)
        rfl)
      rfl)
    rfl,
   rfl, rfl⟩

/-- Claim C4 amended: in every state reachable through check_in and
update_status calls whose stage value is true, a completed visit has all
four gating flags set. -/
theorem fwd_completed_implies_gates (v : Visit) (h : ReachableFwd v) :
    v.visit_completed = true →
      v.checked_in = true ∧ v.triage_completed = true ∧
        v.consultation_completed = true ∧ v.billing_completed = true := by
  induction h with
  | checkin p vt? reason? now v p2 hok =>
    intro hvc
    simp only [check_in] at hok
    split at hok
    · injection hok with hpair
      have hv : _ = v := congrArg Prod.fst hpair
      rw [← hv] at hvc
      exact Bool.noConfusion hvc
    · exact Except.noConfusion hok
  | step v f v2 hr hok ih =>
    intro hvc2
    simp only [update_status] at hok
    by_cases hf : f ∈ statusFields
    · rw [if_pos hf] at hok
      injection hok with h2
      subst h2
      by_cases hac : autoCompleteCheck (setStatusField v f true) = true
      · rw [if_pos hac] at hvc2 ⊢
        have h4 := hac
        unfold autoCompleteCheck at h4
        simp only [Bool.and_eq_true] at h4
        exact ⟨h4.1.1.1, h4.1.1.2, h4.1.2, h4.2⟩
      · rw [if_neg hac] at hvc2 ⊢
        have hv : v.visit_completed = true := by
          rw [← setStatusField_visit_completed v f true]
          exact hvc2
        have hg := ih hv
        exfalso
        apply hac
        have m := setStatusField_true_mono v f
        unfold autoCompleteCheck
        rw [m.1 hg.1, m.2.1 hg.2.1, m.2.2.1 hg.2.2.1, m.2.2.2.2.2 hg.2.2.2]
        rfl
    · rw [if_neg hf] at hok
      exact Except.noConfusion hok

/-- Claim C4 witness: the completed visit vStep3 is reachable with stage
value true throughout and indeed has its four gates set. -/
theorem fwd_completed_implies_gates_witness :
    ReachableFwd vStep3 ∧ vStep3.visit_completed = true ∧
      (vStep3.checked_in = true ∧ vStep3.triage_completed = true ∧
       vStep3.consultation_completed = true ∧ vStep3.billing_completed = true) := by
  have hrw : ReachableFwd vStep3 :=
    ReachableFwd.step vStep2 "billing_completed" vStep3
      (ReachableFwd.step vStep1 "consultation_completed" vStep2
        (ReachableFwd.step vFresh "triage_completed" vStep1
          (ReachableFwd.checkin p1 none none 0 vFresh ⟨1, "P-2024-001", some 0⟩ rfl)
          rfl)
        rfl)
      rfl
  exact ⟨hrw, rfl, fwd_completed_implies_gates vStep3 hrw rfl⟩

/-- Patient store of the cross-patient linkage scenario: two patients. -/
def patientsC8 : List Patient := [⟨1, "P-2024-001", none⟩, ⟨2, "P-2024-002", none⟩]

/-- Visit row 10, owned by patient 2. -/
def visitRowC8 : VisitRow :=
  ⟨10, ⟨2, "WALKIN", "General consultation", true, false, false, false, false, false, false⟩⟩

/-- Claim C8 counterexample: a history create naming patient 1 together with
visit 10, which belongs to patient 2, succeeds and stores the mismatched
record; the serializer never compares the visit owner with the given
patient. -/
theorem history_cross_patient_accepted :
    visitRowC8.visit.patient = 2 ∧ (2 : Nat) ≠ 1 ∧
      medical_history_create patientsC8 [visitRowC8] 1 (some 10) "flu" "rest" =
        some ⟨1, some 10, "flu", "rest"⟩ :=
  ⟨rfl, by decide, rfl⟩

/-- Claim C8 amended: the history create path checks only that the patient
key resolves, that the visit key resolves and that diagnosis and treatment
are nonempty; whichever patient owns the visit, the record is stored as
submitted. -/
theorem history_create_no_cross_check (patients : List Patient)
    (visits : List VisitRow) (patientId vid : Nat) (diagnosis treatment : String)
    (hp : patients.any (fun p => p.id == patientId) = true)
    (hv : visits.any (fun r => r.id == vid) = true)
    (hd : diagnosis ≠ "") (ht : treatment ≠ "") :
    medical_history_create patients visits patientId (some vid) diagnosis treatment =
      some ⟨patientId, some vid, diagnosis, treatment⟩ := by
  simp only [medical_history_create]
  rw [if_pos hp, if_pos hv, if_neg (fun hor => hor.elim hd ht)]

/-- Claim C8 witness: the concrete cross-patient call of the refuting
scenario settled through the amended theorem. -/
theorem history_create_no_cross_check_witness :
    (patientsC8.any (fun p => p.id == 1) = true) ∧
      (List.any [visitRowC8] (fun r => r.id == 10) = true) ∧
      ("flu" ≠ "") ∧ ("rest" ≠ "") ∧
      medical_history_create patientsC8 [visitRowC8] 1 (some 10) "flu" "rest" =
        some ⟨1, some 10, "flu", "rest"⟩ :=
  ⟨by decide, by decide, by decide, by decide,
   history_create_no_cross_check patientsC8 [visitRowC8] 1 10 "flu" "rest"
     (by decide) (by decide) (by decide) (by decide)⟩

/-- Claim C9 counterexample: the seventeen-character value of a plus sign
followed by sixteen digits passes the serializer check, the model regex
and the column width, yet has sixteen digits after the plus, outside the
claimed interval of nine to fifteen. -/
theorem phone_sixteen_digits_accepted :
    acceptPhone ("+1123456789012345".toList) = true ∧
      "+1123456789012345".toList = '+' :: "1123456789012345".toList ∧
      ("1123456789012345".toList).all Char.isDigit = true ∧
      ("1123456789012345".toList).length = 16 :=
  ⟨by decide, by decide, by decide, by decide⟩

/-- Claim C9 amended: every phone number the create and update path accepts
is a plus sign followed by nine to sixteen digits; the sixteen-digit case
arises from the optional literal one of the model regex. -/
theorem phone_accept_shape (cs : List Char) (h : acceptPhone cs = true) :
    ∃ rest, cs = '+' :: rest ∧ rest.all Char.isDigit = true ∧
      9 ≤ rest.length ∧ rest.length ≤ 16 := by
  unfold acceptPhone at h
  simp only [Bool.and_eq_true] at h
  obtain ⟨⟨hval, hreg⟩, _⟩ := h
  cases cs with
  | nil => exact Bool.noConfusion hval
  | cons c rest =>
    have hc : c = '+' := by
      unfold validate_phone_number at hval
      exact eq_of_beq hval
    subst hc
    refine ⟨rest, rfl, ?_⟩
    have hstrip : stripPlus ('+' :: rest) = rest := by simp [stripPlus]
    unfold phone_regex_match at hreg
    rw [hstrip] at hreg
    unfold matchAfterPlus at hreg
    simp only [Bool.or_eq_true] at hreg
    rcases hreg with hA | hB
    · unfold digitsBetween at hA
      simp only [Bool.and_eq_true, decide_eq_true_eq] at hA
      exact ⟨hA.1.1, hA.1.2, by omega⟩
    · cases rest with
      | nil => exact Bool.noConfusion hB
      | cons c2 r2 =>
        simp only [Bool.and_eq_true, beq_iff_eq] at hB
        obtain ⟨hc2, hd2⟩ := hB
        subst hc2
        unfold digitsBetween at hd2
        simp only [Bool.and_eq_true, decide_eq_true_eq] at hd2
        refine ⟨?_, ?_, ?_⟩
        · simp only [List.all_cons, Bool.and_eq_true]
          exact ⟨by decide, hd2.1.1⟩
        · simp only [List.length_cons]
          omega
        · simp only [List.length_cons]
          omega

/-- Claim C9 witness: the canonical Kenyan example number, a plus sign and
twelve digits, settled through the amended theorem. -/
theorem phone_accept_shape_witness :
    acceptPhone ("+254700000000".toList) = true ∧
      ∃ rest, "+254700000000".toList = '+' :: rest ∧ rest.all Char.isDigit = true ∧
        9 ≤ rest.length ∧ rest.length ≤ 16 :=
  ⟨by decide, phone_accept_shape ("+254700000000".toList) (by decide)⟩

end Clinic
